import Mathlib

/-!
Verification of the SLURM cluster-environment adapter
(`pytorch_lightning/plugins/environments/slurm_environment.py`).

The Python class `SLURMEnvironment` is embedded shallowly: the process
environment (`os.environ`) becomes an explicit association list threaded
through the functions that read or write it, Python exceptions become an
explicit error type carried by `Except`, and Python's built-in string and
integer operations are reproduced on `List Char` / `Int`.
-/

set_option autoImplicit false

namespace Slurm

/-! ### Python primitives -/

/-- The decimal digit character for `n < 10` (Python's `str` building block). -/
def digitChar (n : Nat) : Char := Char.ofNat (48 + n)

/-- Fuel-driven most-significant-first decimal digit list of a natural number. -/
def natDigitsAux : Nat → Nat → List Char
  | 0, _ => []
  | fuel + 1, n =>
    if n < 10 then [digitChar n]
    else natDigitsAux fuel (n / 10) ++ [digitChar (n % 10)]

/-- Decimal digit list of `n`, most significant first (`natDigits 120 = ['1','2','0']`). -/
def natDigits (n : Nat) : List Char := natDigitsAux (n + 1) n

/-- Value of a most-significant-first decimal digit list. -/
def digitsVal (l : List Char) : Nat :=
  l.foldl (fun a c => 10 * a + (c.toNat - 48)) 0

/-- Parse a non-empty all-digit character list; `none` otherwise. -/
def parseDigits? (l : List Char) : Option Nat :=
  if l.isEmpty then none
  else if l.all Char.isDigit then some (digitsVal l) else none

/-- Strip leading and trailing whitespace, as Python's `int` does before parsing. -/
def pyTrim (l : List Char) : List Char :=
  ((l.dropWhile Char.isWhitespace).reverse.dropWhile Char.isWhitespace).reverse

/-- Python's `int(s)` on a decimal string: optional surrounding whitespace, an
optional sign, then one or more digits; any other input raises `ValueError`,
modelled as `none`. -/
def pyInt? (s : String) : Option Int :=
  match pyTrim s.toList with
  | [] => none
  | c :: ds =>
    if c = '+' then (parseDigits? ds).map fun n => (n : Int)
    else if c = '-' then (parseDigits? ds).map fun n => -(n : Int)
    else (parseDigits? (c :: ds)).map fun n => (n : Int)

/-- Python's `str` on an integer. -/
def pyStr (i : Int) : String :=
  if i < 0 then String.mk ('-' :: natDigits i.natAbs) else String.mk (natDigits i.toNat)

/-- Python's `s[-4:]`: the last four characters, or all of them when the string
is shorter. -/
def last4 (s : String) : String :=
  String.mk (s.toList.drop (s.toList.length - 4))

/-! ### The process environment -/

/-- A snapshot of `os.environ`: an association list queried by first match. -/
abbrev Env : Type := List (String × String)

/-- Embeds `os.environ.get(name)` and the `name in os.environ` test. -/
def getEnv : Env → String → Option String
  | [], _ => none
  | (k, v) :: rest, name => if name = k then some v else getEnv rest name

/-- Embeds the assignment `os.environ[name] = v`. -/
def setEnv (env : Env) (name v : String) : Env := (name, v) :: env

/-- The exceptions the adapter can raise: `KeyError(key)` from a missing
`os.environ[key]` lookup, and `ValueError` from `int(literal)` on a
non-numeric literal. -/
inductive PyError where
  | keyError (key : String)
  | valueError (literal : String)
deriving DecidableEq, Repr

/-- The string payload an error's message displays: the missing key for
`KeyError`, the offending literal for `ValueError`. -/
def errPayload : PyError → String
  | .keyError k => k
  | .valueError s => s

/-- Whether a computation returned normally. -/
def isOk {ε α : Type} : Except ε α → Bool
  | .ok _ => true
  | .error _ => false

/-! ### Substring search (used to state "the error names the variable") -/

/-- Whether `pat` is a prefix of `l`. -/
def isSubAt : List Char → List Char → Bool
  | [], _ => true
  | _ :: _, [] => false
  | a :: as, b :: bs => a = b && isSubAt as bs

/-- Whether `pat` occurs contiguously inside `l`. -/
def containsSub (pat : List Char) : List Char → Bool
  | [] => isSubAt pat []
  | b :: bs => isSubAt pat (b :: bs) || containsSub pat bs

/-- Whether an error's displayed payload mentions `name`. -/
def mentions (e : PyError) (name : String) : Bool :=
  containsSub name.toList (errPayload e).toList

/-! ### `SLURMEnvironment` -/

/-- Embeds `SLURMEnvironment.creates_children`. -/
def creates_children : Bool := true

/-- Embeds `SLURMEnvironment.resolve_root_node_address`:

    if "[" in root_node:
        name, numbers = root_node.split("[", maxsplit=1)
        number = numbers.split(",", maxsplit=1)[0]
        if "-" in number:
            number = number.split("-")[0]
        number = re.sub("[^0-9]", "", number)
        root_node = name + number
    return root_node
-/
def resolve_root_node_address (root_node : String) : String :=
  if root_node.toList.contains '[' then
    let name := root_node.toList.takeWhile (· ≠ '[')
    let numbers := (root_node.toList.dropWhile (· ≠ '[')).drop 1
    let number := numbers.takeWhile (· ≠ ',')
    let number := if number.contains '-' then number.takeWhile (· ≠ '-') else number
    String.mk (name ++ number.filter Char.isDigit)
  else root_node

/-- Embeds `SLURMEnvironment.master_address`: read `SLURM_NODELIST` (empty counts as
absent by Python truthiness), take the first space-separated then first
comma-separated token, resolve it, publish it as `MASTER_ADDR`, return it. -/
def master_address (env : Env) : String × Env :=
  let root_node :=
    match getEnv env "SLURM_NODELIST" with
    | some s =>
      if s = "" then "127.0.0.1"
      else String.mk ((s.toList.takeWhile (· ≠ ' ')).takeWhile (· ≠ ','))
    | none => "127.0.0.1"
  let root_node := resolve_root_node_address root_node
  (root_node, setEnv env "MASTER_ADDR" root_node)

/-- First block of `SLURMEnvironment.master_port` ("SLURM JOB = PORT
number"): the default port derived from the last four characters of
`SLURM_JOB_ID` plus 15000, or 12910 when the job id is absent or empty
(Python truthiness); `int` raises on a non-numeric slice. -/
def slurm_derived_port (env : Env) : Except PyError Int :=
  match getEnv env "SLURM_JOB_ID" with
  | some s =>
    if s = "" then .ok 12910
    else
      match pyInt? (last4 s) with
      | some n => .ok (n + 15000)
      | none => .error (.valueError (last4 s))
  | none => .ok 12910

/-- Second block of `SLURMEnvironment.master_port` ("PORT NUMBER =
MASTER_PORT"): return `int(MASTER_PORT)` when the user passed it in, else
publish the derived default into `MASTER_PORT` and return it. -/
def master_port_resolve (env : Env) (d : Int) : Except PyError (Int × Env) :=
  match getEnv env "MASTER_PORT" with
  | some mp =>
    match pyInt? mp with
    | some p => .ok (p, env)
    | none => .error (.valueError mp)
  | none => .ok (d, setEnv env "MASTER_PORT" (pyStr d))

/-- Embeds `SLURMEnvironment.master_port`: the default derivation runs first, and can
raise, even when `MASTER_PORT` is set; then the override/publish block runs. -/
def master_port (env : Env) : Except PyError (Int × Env) :=
  match slurm_derived_port env with
  | .error e => .error e
  | .ok d => master_port_resolve env d

/-- Embeds `os.environ[name]`: raises `KeyError(name)` when absent. -/
def getRequired (env : Env) (name : String) : Except PyError String :=
  match getEnv env name with
  | some v => .ok v
  | none => .error (.keyError name)

/-- Embeds `int(os.environ[name])`: `KeyError` when absent, `ValueError` carrying the
raw value when present but non-numeric. -/
def parseIntVar (env : Env) (name : String) : Except PyError Int :=
  match getRequired env name with
  | .ok v =>
    match pyInt? v with
    | some n => .ok n
    | none => .error (.valueError v)
  | .error e => .error e

/-- Embeds `SLURMEnvironment.world_size`. -/
def world_size (env : Env) : Except PyError Int := parseIntVar env "SLURM_NTASKS"

/-- Embeds `SLURMEnvironment.global_rank`. -/
def global_rank (env : Env) : Except PyError Int := parseIntVar env "SLURM_PROCID"

/-- Embeds `SLURMEnvironment.local_rank`. -/
def local_rank (env : Env) : Except PyError Int := parseIntVar env "SLURM_LOCALID"

/-- Embeds `SLURMEnvironment.node_rank`. -/
def node_rank (env : Env) : Except PyError Int := parseIntVar env "SLURM_NODEID"

/-- Embeds `SLURMEnvironment.set_world_size`: only logs a debug message; the
environment (and hence every observable) is untouched. -/
def set_world_size (env : Env) (_size : Int) : Env := env

/-- Embeds `SLURMEnvironment.set_global_rank`: only logs a debug message; the
environment is untouched. -/
def set_global_rank (env : Env) (_rank : Int) : Env := env

/-- The identity quadruple of the spec's `JobIdentity`. -/
structure JobIdentity where
  globalRank : Int
  localRank : Int
  nodeRank : Int
  worldSize : Int
deriving DecidableEq, Repr

/-- Embeds `resolveIdentity`: read the four identity getters in the order the spec
lists them; the first failure propagates. -/
def resolveIdentity (env : Env) : Except PyError JobIdentity :=
  match world_size env with
  | .error e => .error e
  | .ok w =>
    match global_rank env with
    | .error e => .error e
    | .ok g =>
      match local_rank env with
      | .error e => .error e
      | .ok l =>
        match node_rank env with
        | .error e => .error e
        | .ok n => .ok ⟨g, l, n, w⟩

/-- Modelled from the spec (claim C1's algorithm, step 2): the range body is
the text between `[` and the matching `]`, with trailing content after `]`
excluded. Otherwise identical to `resolve_root_node_address`. -/
def spec_resolveRootNodeAddress (root_node : String) : String :=
  if root_node.toList.contains '[' then
    let name := root_node.toList.takeWhile (· ≠ '[')
    let rangeBody := (((root_node.toList.dropWhile (· ≠ '[')).drop 1).takeWhile (· ≠ ']'))
    let number := rangeBody.takeWhile (· ≠ ',')
    let number := if number.contains '-' then number.takeWhile (· ≠ '-') else number
    String.mk (name ++ number.filter Char.isDigit)
  else root_node

/-- Modelled from the amended spec for C1: as claim C1 states the algorithm,
except that the range body is all of the text after the first `[` — the `]`
and any trailing content are not cut off and survive up to the non-digit
filter (and the lower-bound cut is harmlessly unconditional). -/
def specAmended_resolveRootNodeAddress (root_node : String) : String :=
  if root_node.toList.contains '[' then
    let prefixPart := root_node.toList.takeWhile (· ≠ '[')
    let rangeBody := (root_node.toList.dropWhile (· ≠ '[')).drop 1
    let lower := (rangeBody.takeWhile (· ≠ ',')).takeWhile (· ≠ '-')
    String.mk (prefixPart ++ lower.filter Char.isDigit)
  else root_node

/-- The job-id side of the port derivation raises no `ValueError`: the job id
is absent, empty, or its last four characters parse as an integer. -/
def jobIdSideOk (env : Env) : Bool :=
  match getEnv env "SLURM_JOB_ID" with
  | none => true
  | some s => s = "" || (pyInt? (last4 s)).isSome

/-- The override side of the port derivation raises no `ValueError`:
`MASTER_PORT` is absent or parses as an integer. -/
def masterPortSideOk (env : Env) : Bool :=
  match getEnv env "MASTER_PORT" with
  | none => true
  | some mp => (pyInt? mp).isSome

/-- The spec's proviso for the amended C6: every port-relevant variable that
is present parses as an integer (the job id after truncation to its last four
characters). -/
def portInputsParse (env : Env) : Bool :=
  jobIdSideOk env && masterPortSideOk env

end Slurm

namespace Slurm

/-! ### Environment lemmas -/

theorem getEnv_set_self (env : Env) (k v : String) :
    getEnv (setEnv env k v) k = some v := by
  simp [getEnv, setEnv]

theorem getEnv_set_ne (env : Env) (k v n : String) (h : n ≠ k) :
    getEnv (setEnv env k v) n = getEnv env n := by
  simp [getEnv, setEnv, h]

/-! ### Substring lemmas -/

theorem isSubAt_self (l : List Char) : isSubAt l l = true := by
  induction l with
  | nil => rfl
  | cons a as ih => simp [isSubAt, ih]

theorem containsSub_self (l : List Char) : containsSub l l = true := by
  cases l with
  | nil => rfl
  | cons b bs => simp [containsSub, isSubAt_self]

theorem mentions_keyError_self (name : String) :
    mentions (PyError.keyError name) name = true := by
  simp [mentions, errPayload, containsSub_self]

/-! ### Decimal rendering lemmas -/

theorem digitChar_isDigit (m : Nat) (h : m < 10) : (digitChar m).isDigit = true := by
  interval_cases m <;> decide

theorem digitChar_toNat (m : Nat) (h : m < 10) : (digitChar m).toNat = 48 + m := by
  interval_cases m <;> decide

theorem isWhitespace_eq_false_of_isDigit (c : Char) (h : c.isDigit = true) :
    c.isWhitespace = false := by
  cases hw : c.isWhitespace
  · rfl
  · exfalso
    simp only [Char.isWhitespace, Bool.or_eq_true, decide_eq_true_eq] at hw
    rcases hw with ((h1 | h1) | h1) | h1 <;> subst h1 <;> exact absurd h (by decide)

theorem digitsVal_append_digit (xs : List Char) (c : Char) :
    digitsVal (xs ++ [c]) = 10 * digitsVal xs + (c.toNat - 48) := by
  simp [digitsVal, List.foldl_append]

theorem natDigitsAux_spec (fuel : Nat) :
    ∀ n ≤ fuel, natDigitsAux (fuel + 1) n ≠ [] ∧
      (natDigitsAux (fuel + 1) n).all Char.isDigit = true ∧
      digitsVal (natDigitsAux (fuel + 1) n) = n := by
  induction fuel with
  | zero =>
    intro n hn
    interval_cases n
    refine ⟨by decide, by decide, by decide⟩
  | succ fuel ih =>
    intro n hn
    by_cases h10 : n < 10
    · refine ⟨by simp [natDigitsAux, h10], ?_, ?_⟩
      · simp [natDigitsAux, h10, digitChar_isDigit n h10]
      · simp [natDigitsAux, h10, digitsVal, digitChar_toNat n h10]
    · have hdiv : n / 10 < n := Nat.div_lt_self (by omega) (by omega)
      have hle : n / 10 ≤ fuel := by omega
      obtain ⟨hne, hall, hval⟩ := ih (n / 10) hle
      have hmod : n % 10 < 10 := Nat.mod_lt _ (by omega)
      have hstep : natDigitsAux (fuel + 2) n =
          natDigitsAux (fuel + 1) (n / 10) ++ [digitChar (n % 10)] := by
        simp [natDigitsAux, h10]
      refine ⟨by simp [hstep], ?_, ?_⟩
      · simp [hstep, List.all_append, hall, digitChar_isDigit _ hmod]
      · rw [hstep, digitsVal_append_digit, hval, digitChar_toNat _ hmod]
        omega

theorem natDigits_spec (n : Nat) :
    natDigits n ≠ [] ∧ (natDigits n).all Char.isDigit = true ∧
      digitsVal (natDigits n) = n :=
  natDigitsAux_spec n n (Nat.le_refl n)

theorem dropWhile_ws_eq (l : List Char) (h : ∀ c ∈ l, c.isWhitespace = false) :
    l.dropWhile Char.isWhitespace = l := by
  cases l with
  | nil => rfl
  | cons c cs => simp [List.dropWhile_cons, h c (by simp)]

theorem pyTrim_eq_self (l : List Char) (h : ∀ c ∈ l, c.isWhitespace = false) :
    pyTrim l = l := by
  unfold pyTrim
  rw [dropWhile_ws_eq l h,
    dropWhile_ws_eq l.reverse (fun c hc => h c (List.mem_reverse.mp hc)),
    List.reverse_reverse]

theorem parseDigits_natDigits (n : Nat) : parseDigits? (natDigits n) = some n := by
  obtain ⟨hne, hall, hval⟩ := natDigits_spec n
  simp [parseDigits?, List.isEmpty_iff, hne, hall, hval]

theorem pyInt_mk_digits (l : List Char) (hne : l ≠ []) (hall : l.all Char.isDigit = true) :
    pyInt? (String.mk l) = some ((digitsVal l : Nat) : Int) := by
  have hnows : ∀ c ∈ l, c.isWhitespace = false := by
    intro c hc
    exact isWhitespace_eq_false_of_isDigit c (List.all_eq_true.mp hall c hc)
  have htrim : pyTrim (String.mk l).toList = l := pyTrim_eq_self l hnows
  have hparse : parseDigits? l = some (digitsVal l) := by
    simp [parseDigits?, List.isEmpty_iff, hne, hall]
  unfold pyInt?
  rw [htrim]
  cases l with
  | nil => exact absurd rfl hne
  | cons c cs =>
    have hc : c.isDigit = true := List.all_eq_true.mp hall c (by simp)
    have hplus : c ≠ '+' := by intro h; subst h; exact absurd hc (by decide)
    have hminus : c ≠ '-' := by intro h; subst h; exact absurd hc (by decide)
    simp [if_neg hplus, if_neg hminus, hparse]

theorem pyInt_pyStr (i : Int) : pyInt? (pyStr i) = some i := by
  by_cases hneg : i < 0
  · obtain ⟨hne, hall, hval⟩ := natDigits_spec i.natAbs
    have htoList : (pyStr i).toList = '-' :: natDigits i.natAbs := by
      simp [pyStr, hneg]
    have hnows : ∀ c ∈ '-' :: natDigits i.natAbs, c.isWhitespace = false := by
      intro c hc
      rcases List.mem_cons.mp hc with h | h
      · subst h; decide
      · exact isWhitespace_eq_false_of_isDigit c (List.all_eq_true.mp hall c h)
    have hparse : parseDigits? (natDigits i.natAbs) = some (digitsVal (natDigits i.natAbs)) := by
      simp [parseDigits?, List.isEmpty_iff, hne, hall]
    have hmatch : pyInt? (pyStr i) =
        (parseDigits? (natDigits i.natAbs)).map fun n => -(n : Int) := by
      unfold pyInt?
      rw [htoList, pyTrim_eq_self _ hnows]
      rfl
    rw [hmatch, hparse]
    show some (-(digitsVal (natDigits i.natAbs) : Int)) = some i
    rw [hval]
    simp only [Option.some.injEq]
    omega
  · obtain ⟨hne, hall, hval⟩ := natDigits_spec i.toNat
    have hstr : pyStr i = String.mk (natDigits i.toNat) := by simp [pyStr, hneg]
    rw [hstr, pyInt_mk_digits _ hne hall, hval]
    simp only [Option.some.injEq]
    omega

/-! ### Resolver lemmas -/

theorem takeWhile_bne_eq_self (l : List Char) (c : Char) (h : c ∉ l) :
    l.takeWhile (fun x => !decide (x = c)) = l := by
  induction l with
  | nil => rfl
  | cons a as ih =>
    simp only [List.mem_cons, not_or] at h
    have hac : (a = c) = False := eq_false fun hh => h.1 hh.symm
    simp [List.takeWhile_cons, hac, ih h.2]

theorem parseIntVar_ok (env : Env) (name v : String) (n : Int)
    (h : getEnv env name = some v) (hp : pyInt? v = some n) :
    parseIntVar env name = .ok n := by
  simp [parseIntVar, getRequired, h, hp]

theorem parseIntVar_missing (env : Env) (name : String) (h : getEnv env name = none) :
    parseIntVar env name = .error (.keyError name) := by
  simp [parseIntVar, getRequired, h]

theorem parseIntVar_malformed (env : Env) (name v : String)
    (h : getEnv env name = some v) (hp : pyInt? v = none) :
    parseIntVar env name = .error (.valueError v) := by
  simp [parseIntVar, getRequired, h, hp]

theorem master_address_fst_set_master_addr (env : Env) (v : String) :
    (master_address (setEnv env "MASTER_ADDR" v)).1 = (master_address env).1 := by
  unfold master_address
  rw [getEnv_set_ne env "MASTER_ADDR" v "SLURM_NODELIST" (by decide)]

theorem slurm_derived_port_absent (env : Env) (h : getEnv env "SLURM_JOB_ID" = none) :
    slurm_derived_port env = .ok 12910 := by
  simp [slurm_derived_port, h]

theorem slurm_derived_port_empty (env : Env) (h : getEnv env "SLURM_JOB_ID" = some "") :
    slurm_derived_port env = .ok 12910 := by
  simp [slurm_derived_port, h]

theorem slurm_derived_port_parsed (env : Env) (j : String) (k : Int)
    (h : getEnv env "SLURM_JOB_ID" = some j) (hne : j ≠ "")
    (hk : pyInt? (last4 j) = some k) :
    slurm_derived_port env = .ok (k + 15000) := by
  simp [slurm_derived_port, h, hne, hk]

theorem jobIdSideOk_derived (env : Env) (h : jobIdSideOk env = true) :
    ∃ d, slurm_derived_port env = .ok d := by
  unfold jobIdSideOk at h
  cases hj : getEnv env "SLURM_JOB_ID" with
  | none => exact ⟨12910, slurm_derived_port_absent env hj⟩
  | some s =>
    rw [hj] at h
    by_cases hse : s = ""
    · subst hse
      exact ⟨12910, slurm_derived_port_empty env hj⟩
    · have hs : (pyInt? (last4 s)).isSome = true := by simpa [hse] using h
      obtain ⟨k, hk⟩ := Option.isSome_iff_exists.mp hs
      exact ⟨k + 15000, slurm_derived_port_parsed env s k hj hse hk⟩

theorem master_port_override (env : Env) (mp : String) (p : Int)
    (hjob : jobIdSideOk env = true)
    (hm : getEnv env "MASTER_PORT" = some mp) (hp : pyInt? mp = some p) :
    master_port env = .ok (p, env) := by
  obtain ⟨d, hd⟩ := jobIdSideOk_derived env hjob
  simp [master_port, hd, master_port_resolve, hm, hp]

theorem master_port_derived (env : Env) (j : String) (k : Int)
    (hm : getEnv env "MASTER_PORT" = none)
    (hj : getEnv env "SLURM_JOB_ID" = some j) (hjne : j ≠ "")
    (hk : pyInt? (last4 j) = some k) :
    master_port env = .ok (k + 15000, setEnv env "MASTER_PORT" (pyStr (k + 15000))) := by
  simp [master_port, slurm_derived_port_parsed env j k hj hjne hk,
    master_port_resolve, hm]

theorem master_port_default (env : Env)
    (hm : getEnv env "MASTER_PORT" = none)
    (hj : getEnv env "SLURM_JOB_ID" = none ∨ getEnv env "SLURM_JOB_ID" = some "") :
    master_port env = .ok (12910, setEnv env "MASTER_PORT" "12910") := by
  have hd : slurm_derived_port env = .ok 12910 := by
    rcases hj with h | h
    · exact slurm_derived_port_absent env h
    · exact slurm_derived_port_empty env h
  have hstr : pyStr (12910 : Int) = "12910" := rfl
  simp [master_port, hd, master_port_resolve, hm, hstr]

theorem master_port_resolve_spec (env env' : Env) (d p : Int)
    (h : master_port_resolve env d = .ok (p, env')) :
    (getEnv env' "MASTER_PORT").bind pyInt? = some p ∧
    (∀ k, k ≠ "MASTER_PORT" → getEnv env' k = getEnv env k) ∧
    (∀ mp, getEnv env "MASTER_PORT" = some mp → env' = env) := by
  unfold master_port_resolve at h
  split at h
  · rename_i mp hm
    split at h
    · rename_i q hq
      simp only [Except.ok.injEq, Prod.mk.injEq] at h
      obtain ⟨hqp, henv⟩ := h
      subst hqp
      subst henv
      exact ⟨by rw [hm]; simpa using hq, fun k _ => rfl, fun _ _ => rfl⟩
    · exact absurd h (by simp)
  · rename_i hm
    simp only [Except.ok.injEq, Prod.mk.injEq] at h
    obtain ⟨hdp, henv⟩ := h
    subst hdp
    subst henv
    refine ⟨?_, fun k hk => getEnv_set_ne env "MASTER_PORT" (pyStr d) k hk,
      fun mp hmp => ?_⟩
    · rw [getEnv_set_self]
      simpa using pyInt_pyStr d
    · rw [hm] at hmp
      exact Option.noConfusion hmp

/-! ### Claims -/

/-- C10 (confirmed): the SLURM cluster environment always reports that it
creates its own children — `creates_children()` returns `True`
unconditionally. -/
theorem c10_creates_children : creates_children = true := rfl

/-- C7 (confirmed): attempting to externally set world size or global rank is
a no-op that never raises: the environment — the only observable state — is
unchanged, so the identity resolved before and after the attempted mutation
is identical. -/
theorem c7_setters_noop (env : Env) (size rank : Int) :
    set_world_size env size = env ∧ set_global_rank env rank = env ∧
    resolveIdentity (set_world_size env size) = resolveIdentity env ∧
    resolveIdentity (set_global_rank env rank) = resolveIdentity env :=
  ⟨rfl, rfl, rfl, rfl⟩

/-- C1 counterexample: the claim's range body stops at the matching `]`, but
the code keeps everything after `[`; on `"node[07]9"` the code answers
`"node079"` while the claim's algorithm answers `"node07"`. -/
theorem c1_counterexample :
    resolve_root_node_address "node[07]9" = "node079" ∧
    spec_resolveRootNodeAddress "node[07]9" = "node07" ∧
    ("node079" : String) ≠ "node07" :=
  ⟨by decide, by decide, by decide⟩

/-- C1 (amended): `resolve_root_node_address` returns its input unchanged when
it contains no `[`; otherwise it returns the prefix before the first `[`
concatenated with the digit characters of the lower bound (the part before
the first `-`) of the first comma-separated token of the text after `[` —
including any `]` and trailing content, whose non-digit characters the filter
strips. The spec's concrete examples all hold. -/
theorem c1_amended :
    (∀ s, resolve_root_node_address s = specAmended_resolveRootNodeAddress s) ∧
    resolve_root_node_address "node[05-07]" = "node05" ∧
    resolve_root_node_address "node[5,9,12]" = "node5" ∧
    resolve_root_node_address "node[05-07,09]" = "node05" ∧
    (∀ s, s.toList.contains '[' = false → resolve_root_node_address s = s) := by
  refine ⟨?_, by decide, by decide, by decide, ?_⟩
  · intro s
    unfold resolve_root_node_address specAmended_resolveRootNodeAddress
    by_cases h : s.toList.contains '[' = true
    · by_cases hd : '-' ∈ List.takeWhile (fun x => !decide (x = ','))
          ((List.dropWhile (fun x => !decide (x = '[')) s.data).tail)
      · simp [h, hd]
      · simp [h, hd, takeWhile_bne_eq_self _ _ hd]
    · have h' : '[' ∉ s.data := by simpa using h
      simp [h']
  · intro s h
    unfold resolve_root_node_address
    have h' : '[' ∉ s.data := by simpa using h
    simp [h']

/-- Witness for C1's amended theorem at concrete inputs. -/
theorem c1_amended_witness :
    resolve_root_node_address "node01" = specAmended_resolveRootNodeAddress "node01" ∧
    resolve_root_node_address "node01" = "node01" :=
  ⟨c1_amended.1 "node01", c1_amended.2.2.2.2 "node01" (by decide)⟩

/-- C3 counterexample: when the node-list variable is present but empty, the
code falls back to the loopback address by Python truthiness, while the claim
prescribes applying the resolver to the (empty) first token, which yields the
empty string. -/
theorem c3_counterexample :
    (master_address [("SLURM_NODELIST", "")]).1 = "127.0.0.1" ∧
    resolve_root_node_address "" = "" ∧ ("127.0.0.1" : String) ≠ "" :=
  ⟨rfl, rfl, by decide⟩

/-- C3 (amended): when the node-list variable is present and non-empty, the
result is `resolve_root_node_address` applied to the first comma-separated
sub-token of the first space-separated token of its value; when it is absent
or empty, the result is `"127.0.0.1"`. -/
theorem c3_amended (env : Env) (s : String) :
    (getEnv env "SLURM_NODELIST" = some s → s ≠ "" →
      (master_address env).1 =
        resolve_root_node_address
          (String.mk ((s.toList.takeWhile (· ≠ ' ')).takeWhile (· ≠ ',')))) ∧
    ((getEnv env "SLURM_NODELIST" = none ∨ getEnv env "SLURM_NODELIST" = some "") →
      (master_address env).1 = "127.0.0.1") := by
  constructor
  · intro h hne
    unfold master_address
    rw [h]
    simp [hne]
  · rintro (h | h) <;> unfold master_address <;> rw [h] <;> rfl

/-- Witness for C3's amended theorem on a present, non-empty node list. -/
theorem c3_amended_witness :
    (master_address [("SLURM_NODELIST", "node[05-07] node09")]).1 = "node05" := by
  have h := (c3_amended [("SLURM_NODELIST", "node[05-07] node09")]
    "node[05-07] node09").1 rfl (by decide)
  rw [h]
  decide

/-- C4 counterexample: the claim says a present-but-non-numeric identity value
fails with an error naming the variable, but the `ValueError` the code raises
carries only the raw literal, which does not mention the variable's name. -/
theorem c4_counterexample :
    world_size [("SLURM_NTASKS", "abc")] = .error (.valueError "abc") ∧
    mentions (.valueError "abc") "NTASKS" = false ∧
    mentions (.valueError "abc") "SLURM_NTASKS" = false :=
  ⟨rfl, rfl, rfl⟩

/-- C4 (amended): each identity getter fails fast. A missing variable raises
`KeyError` naming that variable; a present but non-numeric value raises
`ValueError` carrying the raw value (not the variable's name) rather than
returning a value. All four getters are this same lookup-and-parse. -/
theorem c4_amended (env : Env) (name v : String) :
    (getEnv env name = none →
      parseIntVar env name = .error (.keyError name) ∧
      mentions (.keyError name) name = true) ∧
    (getEnv env name = some v → pyInt? v = none →
      parseIntVar env name = .error (.valueError v)) ∧
    world_size env = parseIntVar env "SLURM_NTASKS" ∧
    global_rank env = parseIntVar env "SLURM_PROCID" ∧
    local_rank env = parseIntVar env "SLURM_LOCALID" ∧
    node_rank env = parseIntVar env "SLURM_NODEID" :=
  ⟨fun h => ⟨parseIntVar_missing env name h, mentions_keyError_self name⟩,
    fun h hp => parseIntVar_malformed env name v h hp, rfl, rfl, rfl, rfl⟩

/-- Witness for C4's amended theorem: a missing `SLURM_NTASKS` and a
non-numeric `SLURM_LOCALID`, both failing as stated. -/
theorem c4_amended_witness :
    (parseIntVar [] "SLURM_NTASKS" = .error (.keyError "SLURM_NTASKS") ∧
      mentions (.keyError "SLURM_NTASKS") "SLURM_NTASKS" = true) ∧
    parseIntVar [("SLURM_LOCALID", "xy")] "SLURM_LOCALID" = .error (.valueError "xy") :=
  ⟨(c4_amended [] "SLURM_NTASKS" "").1 rfl,
    (c4_amended [("SLURM_LOCALID", "xy")] "SLURM_LOCALID" "xy").2.1 rfl (by decide)⟩

/-- C5 counterexample: identity resolution succeeds on a context whose process
id exceeds the task count, and the resulting identity violates
`globalRank < worldSize` — the code validates nothing. -/
theorem c5_counterexample :
    resolveIdentity
        [("SLURM_NTASKS", "1"), ("SLURM_PROCID", "5"), ("SLURM_LOCALID", "0"),
          ("SLURM_NODEID", "0")] =
      .ok ⟨5, 0, 0, 1⟩ ∧ ¬((5 : Int) < 1) :=
  ⟨rfl, by decide⟩

/-- C5 (amended): resolution passes the parsed variable values through
unchanged, so the invariant `globalRank < worldSize` (with the non-negativity
side conditions) holds on the result exactly when the scheduler-provided
values already satisfy it; the code itself enforces nothing. -/
theorem c5_amended (env : Env) (s t u v : String) (g w l n : Int)
    (ht : getEnv env "SLURM_NTASKS" = some t) (hs : getEnv env "SLURM_PROCID" = some s)
    (hu : getEnv env "SLURM_LOCALID" = some u) (hv : getEnv env "SLURM_NODEID" = some v)
    (hw : pyInt? t = some w) (hg : pyInt? s = some g)
    (hl : pyInt? u = some l) (hn : pyInt? v = some n)
    (hok : 0 ≤ g ∧ g < w ∧ 0 ≤ l ∧ 0 ≤ n) :
    resolveIdentity env = .ok ⟨g, l, n, w⟩ ∧
    0 ≤ g ∧ g < w ∧ 0 < w ∧ 0 ≤ l ∧ 0 ≤ n := by
  have h1 := parseIntVar_ok env "SLURM_NTASKS" t w ht hw
  have h2 := parseIntVar_ok env "SLURM_PROCID" s g hs hg
  have h3 := parseIntVar_ok env "SLURM_LOCALID" u l hu hl
  have h4 := parseIntVar_ok env "SLURM_NODEID" v n hv hn
  refine ⟨?_, hok.1, hok.2.1, by omega, hok.2.2.1, hok.2.2.2⟩
  unfold resolveIdentity world_size global_rank local_rank node_rank
  rw [h1, h2, h3, h4]

/-- Witness for C5's amended theorem at the spec's example context. -/
theorem c5_amended_witness :
    resolveIdentity
        [("SLURM_NTASKS", "4"), ("SLURM_PROCID", "2"), ("SLURM_LOCALID", "0"),
          ("SLURM_NODEID", "1")] =
      .ok ⟨2, 0, 1, 4⟩ ∧ (2 : Int) < 4 := by
  have h := c5_amended
    [("SLURM_NTASKS", "4"), ("SLURM_PROCID", "2"), ("SLURM_LOCALID", "0"),
      ("SLURM_NODEID", "1")]
    "2" "4" "0" "1" 2 4 0 1 rfl rfl rfl rfl (by decide) (by decide) (by decide)
    (by decide) (by decide)
  exact ⟨h.1, h.2.2.1⟩

/-- C2 counterexample: with `MASTER_PORT="6000"` but a non-numeric
`SLURM_JOB_ID`, the derivation of the default port raises before the override
is consulted, so the claim's "present override is returned regardless of the
job id" is false. -/
theorem c2_counterexample :
    master_port [("MASTER_PORT", "6000"), ("SLURM_JOB_ID", "abc")] =
      .error (.valueError "abc") ∧
    isOk (master_port [("MASTER_PORT", "6000"), ("SLURM_JOB_ID", "abc")]) = false :=
  ⟨rfl, rfl⟩

/-- C2 (amended): the three-level priority holds provided the derivation does
not raise. When `MASTER_PORT` is present and parses, and the job-id side is
absent, empty, or parses, the parsed `MASTER_PORT` is returned; else when the
job id is present and non-empty with a parsing last-four slice, the result is
that value plus 15000; else the result is 12910. -/
theorem c2_amended (env : Env) (mp j : String) (p k : Int) :
    (getEnv env "MASTER_PORT" = some mp → pyInt? mp = some p →
      jobIdSideOk env = true → master_port env = .ok (p, env)) ∧
    (getEnv env "MASTER_PORT" = none → getEnv env "SLURM_JOB_ID" = some j →
      j ≠ "" → pyInt? (last4 j) = some k →
      master_port env = .ok (k + 15000, setEnv env "MASTER_PORT" (pyStr (k + 15000)))) ∧
    (getEnv env "MASTER_PORT" = none →
      (getEnv env "SLURM_JOB_ID" = none ∨ getEnv env "SLURM_JOB_ID" = some "") →
      master_port env = .ok (12910, setEnv env "MASTER_PORT" "12910")) :=
  ⟨fun hm hp hjob => master_port_override env mp p hjob hm hp,
    fun hm hj hjne hk => master_port_derived env j k hm hj hjne hk,
    fun hm hj => master_port_default env hm hj⟩

/-- Witness for C2's amended theorem: the spec's four port examples. -/
theorem c2_amended_witness :
    master_port [("MASTER_PORT", "6000"), ("SLURM_JOB_ID", "123456789")] =
      .ok (6000, [("MASTER_PORT", "6000"), ("SLURM_JOB_ID", "123456789")]) ∧
    master_port [("SLURM_JOB_ID", "123456789")] =
      .ok (21789, [("MASTER_PORT", "21789"), ("SLURM_JOB_ID", "123456789")]) ∧
    master_port [("SLURM_JOB_ID", "7")] =
      .ok (15007, [("MASTER_PORT", "15007"), ("SLURM_JOB_ID", "7")]) ∧
    master_port [] = .ok (12910, [("MASTER_PORT", "12910")]) := by
  refine ⟨?_, ?_, ?_, ?_⟩
  · exact (c2_amended _ "6000" "x" 6000 0).1 rfl (by decide) (by decide)
  · exact (c2_amended _ "" "123456789" 0 6789).2.1 rfl rfl (by decide) (by decide)
  · exact (c2_amended _ "" "7" 0 7).2.1 rfl rfl (by decide) (by decide)
  · exact (c2_amended _ "" "" 0 0).2.2 rfl (Or.inl rfl)

/-- C6 counterexample: port resolution does fail on a context whose job-id
value is an arbitrary string — `int("abc")` raises — so "resolvePort never
fails" is false on the code. -/
theorem c6_counterexample :
    master_port [("SLURM_JOB_ID", "abc")] = .error (.valueError "abc") ∧
    isOk (master_port [("SLURM_JOB_ID", "abc")]) = false :=
  ⟨rfl, rfl⟩

/-- C6 (amended): address resolution never fails — it is a total function
whose only effect is the `MASTER_ADDR` write — and port resolution returns a
value whenever the port-relevant variables that are present parse as integers
(the job id after truncation to its last four characters); identity
resolution alone may fail on well-formed numeric contexts' absence. -/
theorem c6_amended (env : Env) :
    master_address env =
      ((master_address env).1, setEnv env "MASTER_ADDR" (master_address env).1) ∧
    (portInputsParse env = true → isOk (master_port env) = true) := by
  refine ⟨rfl, fun h => ?_⟩
  simp only [portInputsParse, Bool.and_eq_true] at h
  obtain ⟨hjob, hmp⟩ := h
  unfold masterPortSideOk at hmp
  cases hm : getEnv env "MASTER_PORT" with
  | some mp =>
    rw [hm] at hmp
    obtain ⟨p, hp⟩ := Option.isSome_iff_exists.mp hmp
    rw [master_port_override env mp p hjob hm hp]
    rfl
  | none =>
    unfold jobIdSideOk at hjob
    cases hj : getEnv env "SLURM_JOB_ID" with
    | none =>
      rw [master_port_default env hm (Or.inl hj)]
      rfl
    | some s =>
      rw [hj] at hjob
      by_cases hse : s = ""
      · subst hse
        rw [master_port_default env hm (Or.inr hj)]
        rfl
      · have hs : (pyInt? (last4 s)).isSome = true := by simpa [hse] using hjob
        obtain ⟨k, hk⟩ := Option.isSome_iff_exists.mp hs
        rw [master_port_derived env s k hm hj hse hk]
        rfl

/-- Witness for C6's amended theorem on a fully populated context. -/
theorem c6_amended_witness :
    portInputsParse [("SLURM_JOB_ID", "123456789"), ("MASTER_PORT", "6000")] = true ∧
    isOk (master_port [("SLURM_JOB_ID", "123456789"), ("MASTER_PORT", "6000")]) = true :=
  ⟨by decide, (c6_amended _).2 (by decide)⟩

/-- C8 (confirmed): whenever port resolution returns `p`, the `MASTER_PORT`
entry of the resulting environment parses to exactly `p` — written when it
was absent, and when already present the environment is returned unchanged —
and every entry other than `MASTER_PORT` is untouched. -/
theorem c8_port_published (env env' : Env) (p : Int)
    (h : master_port env = .ok (p, env')) :
    (getEnv env' "MASTER_PORT").bind pyInt? = some p ∧
    (∀ k, k ≠ "MASTER_PORT" → getEnv env' k = getEnv env k) ∧
    (∀ mp, getEnv env "MASTER_PORT" = some mp → env' = env) := by
  unfold master_port at h
  split at h
  · exact absurd h (by simp)
  · rename_i d hd
    exact master_port_resolve_spec env env' d p h

/-- Witness for C8 on the empty context: the default port is published. -/
theorem c8_port_published_witness :
    (getEnv [("MASTER_PORT", "12910")] "MASTER_PORT").bind pyInt? = some 12910 :=
  (c8_port_published [] [("MASTER_PORT", "12910")] 12910 rfl).1

/-- C9 (confirmed): address resolution is deterministic and idempotent — the
second call on the environment produced by the first returns the same address
and leaves the observable environment unchanged, because the resolver reads
only the node-list variable, not the `MASTER_ADDR` entry it writes. -/
theorem c9_idempotent (env : Env) :
    (master_address ((master_address env).2)).1 = (master_address env).1 ∧
    ∀ k, getEnv ((master_address ((master_address env).2)).2) k =
      getEnv ((master_address env).2) k := by
  have h1 : (master_address env).2 = setEnv env "MASTER_ADDR" (master_address env).1 := rfl
  have hfst : (master_address ((master_address env).2)).1 = (master_address env).1 := by
    rw [h1]
    exact master_address_fst_set_master_addr env _
  refine ⟨hfst, fun k => ?_⟩
  have h2 : (master_address ((master_address env).2)).2 =
      setEnv ((master_address env).2) "MASTER_ADDR"
        ((master_address ((master_address env).2)).1) := rfl
  rw [h2, hfst]
  by_cases hk : k = "MASTER_ADDR"
  · subst hk
    rw [getEnv_set_self, h1, getEnv_set_self]
  · rw [getEnv_set_ne _ _ _ _ hk]

example : resolve_root_node_address "node01" = "node01" := by decide
example : resolve_root_node_address "node[05-07]" = "node05" := by decide
example : resolve_root_node_address "node[5,9,12]" = "node5" := by decide
example : resolve_root_node_address "node[05-07,09]" = "node05" := by decide
example : resolve_root_node_address "node[07]9" = "node079" := by decide
example : spec_resolveRootNodeAddress "node[07]9" = "node07" := by decide
example : pyInt? "6789" = some 6789 := by decide
example : pyInt? "abc" = none := by decide
example : last4 "123456789" = "6789" := by decide
example : pyStr 12910 = "12910" := by decide

end Slurm
